import Mathlib

/-!
Verification of the profile-resolution and SSID-detection core of
WiFi-Auto-Auth (`network_utils.py`).

The embedding mirrors the Python source:

* Operating-system tools are an environment `OSEnv`: a (lowered) platform
  name plus a function from a command line to either the command's stdout or
  a raised exception (`ToolError`).
* Python `Optional[str]` is `Option String`; a function that can raise is
  `Except`-valued, and every `try/except` in the source appears as an
  explicit `match` on the `Except` value.
* The JSON configuration is `Config`: the top-level string-valued fields as
  an association list (Python dicts iterate in insertion order, so an
  association list with distinct keys is a faithful model) plus the
  optional `"networks"` mapping of name to profile.
* String parsing (`str.split`, `str.strip`, the regular expressions
  `ESSID:"([^"]*)"` and `SSID\s*:\s*(.+)`) is implemented character by
  character on `List Char`, following the Python semantics.
-/

/-- An exception raised by running an external command
(`subprocess.CalledProcessError`, a missing binary, or any other error). -/
inductive ToolError where
  | calledProcessError
  | missingBinary
  | otherError
deriving DecidableEq, Repr

/-- The operating system as seen by `NetworkDetector`: the value of
`platform.system().lower()` and the behaviour of `subprocess.run` for each
command line (stdout on success, or a raised exception). -/
structure OSEnv where
  platform : String
  run : List String → Except ToolError String

/-- Python's whitespace class for `str.strip` and the regex class `\s`
(restricted to ASCII, which is all these tools emit). -/
def isPySpace (c : Char) : Bool :=
  c = ' ' || c = '\t' || c = '\n' || c = '\r' || c = '\x0b' || c = '\x0c'

/-- `str.strip()` on a character list: drop whitespace from both ends. -/
def stripChars (cs : List Char) : List Char :=
  ((cs.dropWhile isPySpace).reverse.dropWhile isPySpace).reverse

/-- `str.strip()`. -/
def pyStrip (s : String) : String := ⟨stripChars s.data⟩

/-- Helper for `splitLines`: `cur` is the current line, reversed. -/
def splitLinesAux (cur : List Char) : List Char → List (List Char)
  | [] => [cur.reverse]
  | c :: cs =>
    if c = '\n' then cur.reverse :: splitLinesAux [] cs
    else splitLinesAux (c :: cur) cs

/-- Python `str.split('\n')`: split at every newline, keeping empty parts. -/
def splitLines (cs : List Char) : List (List Char) := splitLinesAux [] cs

/-- Python `pat in s` (substring containment) for a character list. -/
def containsSub (pat : List Char) : List Char → Bool
  | [] => pat.isPrefixOf []
  | c :: cs => pat.isPrefixOf (c :: cs) || containsSub pat cs

/-- Python `s.split(pat)[-1]` for a non-empty pattern `p :: ps`: the text
after the last of the non-overlapping left-to-right occurrences of the
pattern, or the whole text when the pattern does not occur. -/
def pyAfterLast (p : Char) (ps : List Char) : List Char → List Char
  | [] => []
  | c :: cs =>
    if (p :: ps).isPrefixOf (c :: cs) then pyAfterLast p ps (cs.drop ps.length)
    else if containsSub (p :: ps) cs then pyAfterLast p ps cs
    else c :: cs
termination_by l => l.length
decreasing_by
  · simp [List.length_drop]; omega
  · simp

/-- `s.split(pat)[-1]` on strings (`pat` non-empty at every use site). -/
def afterLastStr (pat : String) (s : String) : String :=
  match pat.data with
  | [] => s
  | p :: ps => ⟨pyAfterLast p ps s.data⟩

/-- `pat in s` on strings. -/
def containsStr (pat : String) (s : String) : Bool := containsSub pat.data s.data

/-- The seven characters of the literal regex part `ESSID:"`. -/
def essidPat : List Char := "ESSID:".data ++ ['"']

/-- The regex piece `([^"]*)"`: the characters before the next double quote,
or `none` when no closing quote follows. -/
def takeUntilQuote : List Char → Option (List Char)
  | [] => none
  | c :: cs => if c = '"' then some [] else (takeUntilQuote cs).map (c :: ·)

/-- `re.search(r'ESSID:"([^"]*)"', line)`: at each position, leftmost first,
try to match the literal `ESSID:"` followed by a capture up to the next
double quote; a position without a closing quote fails and the search
continues one character further (`7 = essidPat.length`). -/
def essidScan : List Char → Option (List Char)
  | [] => none
  | c :: cs =>
    match (if essidPat.isPrefixOf (c :: cs) then takeUntilQuote ((c :: cs).drop 7) else none) with
    | some g => some g
    | none => essidScan cs

/-- The line loop of `NetworkDetector._linux_iwconfig`: on the first line
containing `ESSID:` whose regex matches, return the captured group; a line
that contains `ESSID:` but does not match (for example `ESSID:off/any`) is
skipped. -/
def iwconfigFind : List (List Char) → Option String
  | [] => none
  | l :: ls =>
    if containsSub "ESSID:".data l then
      match essidScan l with
      | some g => some ⟨g⟩
      | none => iwconfigFind ls
    else iwconfigFind ls

/-- `NetworkDetector._linux_iwconfig`: run `iwconfig` (errors propagate to
the caller's loop) and scan its lines. -/
def linuxIwconfig (env : OSEnv) : Except ToolError (Option String) :=
  (env.run ["iwconfig"]).map fun out => iwconfigFind (splitLines out.data)

/-- `NetworkDetector._linux_iwgetid`: run `iwgetid -r`, strip the output,
and turn an empty result into `None`. -/
def linuxIwgetid (env : OSEnv) : Except ToolError (Option String) :=
  (env.run ["iwgetid", "-r"]).map fun out =>
    let ssid := pyStrip out
    if ssid = "" then none else some ssid

/-- The line loop of `NetworkDetector._linux_nmcli`: the first line starting
with `yes:` decides the result (the text after the first colon, or `None`
when that text is empty); later lines are not consulted. -/
def nmcliFind : List (List Char) → Option String
  | [] => none
  | l :: ls =>
    if "yes:".data.isPrefixOf l then
      let ssid : List Char := l.drop 4
      if ssid.isEmpty then none else some ⟨ssid⟩
    else nmcliFind ls

/-- `NetworkDetector._linux_nmcli`. -/
def linuxNmcli (env : OSEnv) : Except ToolError (Option String) :=
  (env.run ["nmcli", "-t", "-f", "active,ssid", "dev", "wifi"]).map fun out =>
    nmcliFind (splitLines out.data)

/-- The `for method in methods` loop of `NetworkDetector._get_ssid_linux`:
a raised exception or a falsy result (`None` or the empty string) moves on
to the next method; a truthy SSID is returned at once. -/
def linuxTryMethods : List (Except ToolError (Option String)) → Option String
  | [] => none
  | m :: ms =>
    match m with
    | .ok (some ssid) => if ssid ≠ "" then some ssid else linuxTryMethods ms
    | .ok none => linuxTryMethods ms
    | .error _ => linuxTryMethods ms

/-- `NetworkDetector._get_ssid_linux`: try `iwgetid`, `nmcli`, `iwconfig`
in that order; the loop itself never raises. -/
def getSsidLinux (env : OSEnv) : Except ToolError (Option String) :=
  .ok (linuxTryMethods [linuxIwgetid env, linuxNmcli env, linuxIwconfig env])

/-- The regex tail `\s*:\s*(.+)` of `SSID\s*:\s*(.+)` together with the
`.strip()` the caller applies to the captured group: after optional
whitespace there must be a colon followed by at least one character; the
stripped capture is then the stripped remainder of the line. -/
def winGroup (cs : List Char) : Option (List Char) :=
  match cs.dropWhile isPySpace with
  | ':' :: r2 => if r2.isEmpty then none else some (stripChars r2)
  | _ => none

/-- `re.search(r'SSID\s*:\s*(.+)', line)` followed by `.strip()` on the
capture: leftmost position where the literal `SSID` and the tail match
(`4 = length "SSID"`). -/
def winSSIDscan : List Char → Option (List Char)
  | [] => none
  | c :: cs =>
    match (if "SSID".data.isPrefixOf (c :: cs) then winGroup ((c :: cs).drop 4) else none) with
    | some g => some g
    | none => winSSIDscan cs

/-- The line loop of `NetworkDetector._get_ssid_windows`: lines containing
`SSID` but not `BSSID` are stripped and matched; the first match is
returned. -/
def winFind : List (List Char) → Option String
  | [] => none
  | l :: ls =>
    if containsSub "SSID".data l && !containsSub "BSSID".data l then
      match winSSIDscan (stripChars l) with
      | some g => some ⟨g⟩
      | none => winFind ls
    else winFind ls

/-- `NetworkDetector._get_ssid_windows`: run the two `netsh` commands and
parse the interfaces output; the function's own `try/except` turns any
raised error into `None`. -/
def getSsidWindows (env : OSEnv) : Except ToolError (Option String) :=
  match (do
      let _ ← env.run ["netsh", "wlan", "show", "profiles"]
      let out ← env.run ["netsh", "wlan", "show", "interfaces"]
      Except.ok (winFind (splitLines out.data)) :
      Except ToolError (Option String)) with
  | .ok r => .ok r
  | .error _ => .ok none

/-- The line loop of the `airport -I` fallback in
`NetworkDetector._get_ssid_macos`: the first line containing `SSID:` yields
the stripped text after its last `SSID:`. -/
def macosAirportFind : List (List Char) → Option String
  | [] => none
  | l :: ls =>
    if containsSub "SSID:".data l then some ⟨stripChars (pyAfterLast 'S' "SID:".data l)⟩
    else macosAirportFind ls

/-- The canonical `networksetup` message when no network is joined. -/
def notAssociatedMsg : String := "You are not associated with an AirPort network."

/-- `NetworkDetector._get_ssid_macos`: try `networksetup -getairportnetwork
en0` and accept its answer when it is truthy and not the canonical
not-associated message; otherwise fall back to the `airport -I` utility;
the function's own `try/except` turns any raised error into `None`. -/
def getSsidMacos (env : OSEnv) : Except ToolError (Option String) :=
  match (do
      let out ← env.run ["networksetup", "-getairportnetwork", "en0"]
      match (if containsStr "Current Wi-Fi Network:" out then
               let ssid := pyStrip (afterLastStr "Current Wi-Fi Network:" out)
               if ssid ≠ "" ∧ ssid ≠ notAssociatedMsg then some ssid else none
             else none) with
      | some ssid => Except.ok (some ssid)
      | none => do
        let out2 ← env.run ["/System/Library/PrivateFrameworks/Apple80211.framework/Versions/Current/Resources/airport", "-I"]
        Except.ok (macosAirportFind (splitLines out2.data)) :
      Except ToolError (Option String)) with
  | .ok r => .ok r
  | .error _ => .ok none

/-- `NetworkDetector.get_current_ssid`: dispatch on the platform name
(unsupported platforms yield `None` at once) and catch any exception the
chosen strategy might raise, turning it into `None`. -/
def getCurrentSsid (env : OSEnv) : Except ToolError (Option String) :=
  match (if env.platform = "windows" then getSsidWindows env
         else if env.platform = "darwin" then getSsidMacos env
         else if env.platform = "linux" then getSsidLinux env
         else Except.ok none) with
  | .ok r => .ok r
  | .error _ => .ok none

/-- A network profile: a JSON object with string-valued fields, in
insertion order, as Python dicts iterate. -/
abbrev Profile := List (String × String)

/-- The parsed configuration file: the string-valued top-level fields
(`wifi_url`, `username`, `password`, `ssid`, `product_type`,
`default_network`) and, when the key `"networks"` is present, the mapping
of profile name to profile. -/
structure Config where
  top : List (String × String)
  networks : Option (List (String × Profile))

/-- An exception raised inside `NetworkProfileManager`:
`FileNotFoundError` from `load_config`, `KeyError` from a required-field
access, `ValueError` for an unknown explicit profile name, `IndexError`
from `list(networks.keys())[0]` on an empty mapping, or an exception
propagated out of the detector. -/
inductive ResolveError where
  | fileNotFound
  | keyError (k : String)
  | valueError (name : String)
  | indexError
  | toolError (e : ToolError)
deriving DecidableEq, Repr

/-- The spec's `ConfigurationError` kind: missing configuration file,
missing required field, or unknown explicit profile name — and nothing
else. -/
def ResolveError.isConfigurationError : ResolveError → Bool
  | .fileNotFound => true
  | .keyError _ => true
  | .valueError _ => true
  | .indexError => false
  | .toolError _ => false

/-- Python `d.get(k)` on a dict modelled as an association list: the value
at the first occurrence of the key. -/
def dictGet (d : List (String × α)) (k : String) : Option α :=
  (d.find? (fun kv => kv.1 == k)).map (·.2)

/-- `NetworkProfileManager.load_config`: the configuration source is
`none` when the file is missing, in which case `FileNotFoundError` is
raised. -/
def loadConfig : Option Config → Except ResolveError Config
  | none => .error .fileNotFound
  | some c => .ok c

/-- The synthesized legacy profile built by `get_network_profile` from the
top-level fields, given the three required values; `ssid` and
`product_type` default to `"Unknown"` and `"0"`. -/
def legacyProfile (top : List (String × String)) (wu un pw : String) : Profile :=
  [("ssid", (dictGet top "ssid").getD "Unknown"),
   ("wifi_url", wu), ("username", un), ("password", pw),
   ("product_type", (dictGet top "product_type").getD "0"),
   ("description", "Legacy configuration")]

/-- The legacy branch of `get_network_profile`: the dict literal reads
`config["wifi_url"]`, `config["username"]`, `config["password"]` in that
order, raising `KeyError` at the first missing one. -/
def legacyResolve (top : List (String × String)) : Except ResolveError (String × Profile) :=
  match dictGet top "wifi_url" with
  | none => .error (.keyError "wifi_url")
  | some wu =>
    match dictGet top "username" with
    | none => .error (.keyError "username")
    | some un =>
      match dictGet top "password" with
      | none => .error (.keyError "password")
      | some pw => .ok ("legacy", legacyProfile top wu un pw)

/-- The SSID-match loop of `get_network_profile`: the first profile in the
mapping's iteration order whose `"ssid"` field equals the detected SSID. -/
def findBySsid (networks : List (String × Profile)) (ssid : String) : Option (String × Profile) :=
  networks.find? (fun np => dictGet np.2 "ssid" == some ssid)

/-- The auto-detect step: call the detector (an exception would propagate);
a truthy SSID is scanned for in the mapping, a falsy one (`None` or `""`)
matches nothing. -/
def detectMatch (env : OSEnv) (networks : List (String × Profile)) :
    Except ResolveError (Option (String × Profile)) :=
  match getCurrentSsid env with
  | .ok (some ssid) => .ok (if ssid ≠ "" then findBySsid networks ssid else none)
  | .ok none => .ok none
  | .error e => .error (.toolError e)

/-- The fallback tail of `get_network_profile`:
`config.get("default_network", list(networks.keys())[0])` (the default
argument is evaluated eagerly, so an empty mapping without a
`default_network` field raises `IndexError` here), then the profile under
that name if it exists, else `list(networks.keys())[0]` again. -/
def defaultFallback (top : List (String × String)) (networks : List (String × Profile)) :
    Except ResolveError (String × Profile) :=
  match dictGet top "default_network" with
  | some d =>
    match dictGet networks d with
    | some p => .ok (d, p)
    | none =>
      match networks with
      | [] => .error .indexError
      | (k, p) :: _ => .ok (k, p)
  | none =>
    match networks with
    | [] => .error .indexError
    | (k, p) :: _ => .ok (k, p)

/-- The no-explicit-name path of `get_network_profile`: auto-detect (when
enabled) and then the default/first fallback. -/
def autoResolve (env : OSEnv) (top : List (String × String))
    (networks : List (String × Profile)) (autoDetect : Bool) :
    Except ResolveError (String × Profile) :=
  match (if autoDetect then detectMatch env networks else .ok none) with
  | .error e => .error e
  | .ok (some (n, p)) => .ok (n, p)
  | .ok none => defaultFallback top networks

/-- `NetworkProfileManager.get_network_profile`: legacy configurations
resolve from the top-level fields regardless of the arguments; otherwise a
truthy explicit name is looked up (raising `ValueError` when absent, the
name being the payload of the exception message) and a falsy one
(`None` or `""`) falls through to auto-detection and the fallbacks. -/
def getNetworkProfile (env : OSEnv) (cfgFile : Option Config)
    (networkName : Option String) (autoDetect : Bool) :
    Except ResolveError (String × Profile) :=
  match loadConfig cfgFile with
  | .error e => .error e
  | .ok config =>
    match config.networks with
    | none => legacyResolve config.top
    | some networks =>
      match networkName with
      | some name =>
        if name ≠ "" then
          match dictGet networks name with
          | some p => .ok (name, p)
          | none => .error (.valueError name)
        else autoResolve env config.top networks autoDetect
      | none => autoResolve env config.top networks autoDetect

/-- The one-entry summary `list_networks` builds for a legacy
configuration: only `ssid`, `wifi_url` and `description`. -/
def legacyListEntry (top : List (String × String)) (wu : String) : Profile :=
  [("ssid", (dictGet top "ssid").getD "Unknown"),
   ("wifi_url", wu),
   ("description", "Legacy configuration")]

/-- `NetworkProfileManager.list_networks`: the `networks` mapping verbatim,
or the synthetic `"legacy"` entry; the surrounding `try/except` turns any
raised error (missing file, or `KeyError` on `config["wifi_url"]`) into an
empty mapping. -/
def listNetworks (cfgFile : Option Config) : List (String × Profile) :=
  match (match loadConfig cfgFile with
         | .error e => .error e
         | .ok config =>
           match config.networks with
           | none =>
             match dictGet config.top "wifi_url" with
             | none => .error (ResolveError.keyError "wifi_url")
             | some wu => .ok [("legacy", legacyListEntry config.top wu)]
           | some networks => Except.ok networks :
         Except ResolveError (List (String × Profile))) with
  | .ok r => r
  | .error _ => []

/-- `NetworkProfileManager.get_available_networks`: the keys of the
`networks` mapping, or the synthetic singleton `["default"]` for a legacy
configuration; the surrounding `try/except` turns any raised error into an
empty list. -/
def getAvailableNetworks (cfgFile : Option Config) : List String :=
  match (match loadConfig cfgFile with
         | .error e => .error e
         | .ok config =>
           match config.networks with
           | some networks => Except.ok (networks.map Prod.fst)
           | none => Except.ok ["default"] :
         Except ResolveError (List String)) with
  | .ok r => r
  | .error _ => []

/-- A Linux host where only `iwgetid -r` works and prints `out`. -/
def envIwgetid (out : String) : OSEnv :=
  ⟨"linux", fun cmd => if cmd = ["iwgetid", "-r"] then .ok out else .error .calledProcessError⟩

/-- A Linux host where only `iwconfig` works and prints `out`. -/
def envIwconfig (out : String) : OSEnv :=
  ⟨"linux", fun cmd => if cmd = ["iwconfig"] then .ok out else .error .calledProcessError⟩

/-- A Linux host where every external command raises. -/
def envNoTool : OSEnv := ⟨"linux", fun _ => .error .missingBinary⟩

/-- The spec's two-profile example mapping. -/
def netsHW : List (String × Profile) :=
  [("home", [("ssid", "Home-5G")]), ("work", [("ssid", "CorpNet")])]

/-- A complete legacy top-level configuration. -/
def topLegacy : List (String × String) :=
  [("wifi_url", "http://portal/login"), ("username", "alice"), ("password", "pw")]

/-- The value a single detection method contributes to the
`_get_ssid_linux` loop: its SSID when it returned a truthy one, nothing
when it raised or returned a falsy value (`None` or `""`). -/
def truthyRes : Except ToolError (Option String) → Option String
  | .ok (some ssid) => if ssid ≠ "" then some ssid else none
  | .ok none => none
  | .error _ => none

theorem getCurrentSsid_ok (env : OSEnv) : ∃ o, getCurrentSsid env = .ok o := by
  unfold getCurrentSsid
  split
  · exact ⟨_, rfl⟩
  · exact ⟨none, rfl⟩

theorem linuxTryMethods_cons (m : Except ToolError (Option String))
    (ms : List (Except ToolError (Option String))) :
    linuxTryMethods (m :: ms) =
      match truthyRes m with
      | some ssid => some ssid
      | none => linuxTryMethods ms := by
  cases m with
  | ok o =>
    cases o with
    | some s =>
      by_cases hs : s = ""
      · simp [linuxTryMethods, truthyRes, hs]
      · simp [linuxTryMethods, truthyRes, hs]
    | none => simp [linuxTryMethods, truthyRes]
  | error e => simp [linuxTryMethods, truthyRes]

/-- C4: `get_current_ssid` never raises to its caller: for every platform
and every behaviour of the underlying OS tools (command failure, missing
binary, unparseable output, or an unsupported platform), it returns either
an SSID string or absent (`None`), never propagating an error. -/
theorem spec_c4_detector_never_raises (env : OSEnv) :
    ∃ ssid : Option String, getCurrentSsid env = .ok ssid :=
  getCurrentSsid_ok env

/-- C5: on Linux, SSID detection tries exactly `iwgetid`, `nmcli`,
`iwconfig` in that fixed order, returning the result of the first mechanism
that yields a non-empty SSID (an exception or an empty result from one
mechanism is swallowed and the next is attempted), and absent is returned
exactly when all three yield nothing. -/
theorem spec_c5_linux_method_order (env : OSEnv) :
    (getSsidLinux env =
      .ok (match truthyRes (linuxIwgetid env) with
           | some ssid => some ssid
           | none =>
             match truthyRes (linuxNmcli env) with
             | some ssid => some ssid
             | none => truthyRes (linuxIwconfig env)))
  ∧ (getSsidLinux env = .ok none ↔
      truthyRes (linuxIwgetid env) = none ∧ truthyRes (linuxNmcli env) = none ∧
        truthyRes (linuxIwconfig env) = none) := by
  have h1 : getSsidLinux env =
      .ok (match truthyRes (linuxIwgetid env) with
           | some ssid => some ssid
           | none =>
             match truthyRes (linuxNmcli env) with
             | some ssid => some ssid
             | none => truthyRes (linuxIwconfig env)) := by
    unfold getSsidLinux
    rw [linuxTryMethods_cons, linuxTryMethods_cons, linuxTryMethods_cons]
    cases truthyRes (linuxIwgetid env) <;>
      cases truthyRes (linuxNmcli env) <;>
        cases truthyRes (linuxIwconfig env) <;> simp [linuxTryMethods]
  refine ⟨h1, ?_⟩
  rw [h1]
  cases truthyRes (linuxIwgetid env) <;>
    cases truthyRes (linuxNmcli env) <;>
      cases truthyRes (linuxIwconfig env) <;> simp

theorem isPrefixOf_append_self (xs ys : List Char) : xs.isPrefixOf (xs ++ ys) = true := by
  induction xs with
  | nil => simp
  | cons a as ih => simp [List.isPrefixOf_cons₂, ih]

theorem mem_of_isPrefixOf {xs ys : List Char} {c : Char}
    (h : xs.isPrefixOf ys = true) (hc : c ∈ xs) : c ∈ ys := by
  induction xs generalizing ys with
  | nil => simp at hc
  | cons a as ih =>
    cases ys with
    | nil => simp at h
    | cons b bs =>
      rw [List.isPrefixOf_cons₂] at h
      obtain ⟨hab, hpre⟩ := Bool.and_eq_true_iff.mp h
      rcases List.mem_cons.mp hc with hca | hcas
      · exact hca ▸ (eq_of_beq hab) ▸ List.mem_cons_self b bs
      · exact List.mem_cons_of_mem b (ih hpre hcas)

theorem takeUntilQuote_append {s : List Char} (hs : '"' ∉ s) (rest : List Char) :
    takeUntilQuote (s ++ '"' :: rest) = some s := by
  induction s with
  | nil => simp [takeUntilQuote]
  | cons c cs ih =>
    have hc : c ≠ '"' := fun he => hs (he ▸ List.mem_cons_self c cs)
    have hcs : '"' ∉ cs := fun hm => hs (List.mem_cons_of_mem c hm)
    simp [takeUntilQuote, hc, ih hcs]

theorem essidScan_cons (c : Char) (cs : List Char) :
    essidScan (c :: cs) =
      match (if essidPat.isPrefixOf (c :: cs) then takeUntilQuote ((c :: cs).drop 7) else none) with
      | some g => some g
      | none => essidScan cs := rfl

theorem essidScan_of_prefix {tail g : List Char} (h : takeUntilQuote tail = some g) :
    essidScan (essidPat ++ tail) = some g := by
  have hpre : essidPat.isPrefixOf (essidPat ++ tail) = true := isPrefixOf_append_self _ _
  have hdrop : (essidPat ++ tail).drop 7 = tail := by
    rw [show (7 : Nat) = essidPat.length from rfl, List.drop_left]
  have hcons : essidPat ++ tail = 'E' :: (['S', 'S', 'I', 'D', ':', '"'] ++ tail) := rfl
  rw [hcons, essidScan_cons, ← hcons, if_pos hpre, hdrop, h]

theorem essidScan_none {cs : List Char} (h : '"' ∉ cs) : essidScan cs = none := by
  induction cs with
  | nil => rfl
  | cons c cs ih =>
    have hpre : essidPat.isPrefixOf (c :: cs) ≠ true := by
      intro hb
      exact h (mem_of_isPrefixOf hb (by decide))
    have hcs : '"' ∉ cs := fun hm => h (List.mem_cons_of_mem c hm)
    rw [essidScan_cons, if_neg hpre, ih hcs]

theorem splitLinesAux_no_newline {cs : List Char} (h : '\n' ∉ cs) :
    ∀ cur, splitLinesAux cur cs = [cur.reverse ++ cs] := by
  induction cs with
  | nil => intro cur; simp [splitLinesAux]
  | cons c cs ih =>
    intro cur
    have hc : c ≠ '\n' := fun he => h (he ▸ List.mem_cons_self c cs)
    have hcs : '\n' ∉ cs := fun hm => h (List.mem_cons_of_mem c hm)
    simp [splitLinesAux, hc, ih hcs]

theorem splitLines_no_newline {cs : List Char} (h : '\n' ∉ cs) : splitLines cs = [cs] := by
  rw [splitLines, splitLinesAux_no_newline h]
  rfl

theorem splitLinesAux_no_mem {c : Char} :
    ∀ (cs : List Char), c ∉ cs → ∀ (cur : List Char), c ∉ cur →
      ∀ l ∈ splitLinesAux cur cs, c ∉ l := by
  intro cs
  induction cs with
  | nil =>
    intro _ cur hcur l hl
    simp [splitLinesAux] at hl
    subst hl
    simpa using hcur
  | cons a as ih =>
    intro h cur hcur l hl
    have ha : c ≠ a := fun he => h (he ▸ List.mem_cons_self a as)
    have has : c ∉ as := fun hm => h (List.mem_cons_of_mem a hm)
    by_cases hnl : a = '\n'
    · rw [splitLinesAux, if_pos hnl] at hl
      rcases List.mem_cons.mp hl with rfl | hl2
      · simpa using hcur
      · exact ih has [] (by simp) l hl2
    · rw [splitLinesAux, if_neg hnl] at hl
      refine ih has (a :: cur) ?_ l hl
      intro hm
      rcases List.mem_cons.mp hm with he | hm2
      · exact ha he
      · exact hcur hm2

theorem iwconfigFind_none {ls : List (List Char)} (h : ∀ l ∈ ls, '"' ∉ l) :
    iwconfigFind ls = none := by
  induction ls with
  | nil => rfl
  | cons l ls ih =>
    have hscan : essidScan l = none := essidScan_none (h l (List.mem_cons_self l ls))
    have htail : iwconfigFind ls = none := ih fun l2 hl2 => h l2 (List.mem_cons_of_mem l hl2)
    by_cases hc : containsSub "ESSID:".data l = true
    · simp [iwconfigFind, hc, hscan, htail]
    · simp [iwconfigFind, hc, htail]

theorem containsSub_append_self (p rest : List Char) : containsSub p (p ++ rest) = true := by
  cases p with
  | nil =>
    cases rest with
    | nil => rfl
    | cons c cs => simp [containsSub]
  | cons c p2 =>
    rw [List.cons_append]
    simp [containsSub, isPrefixOf_append_self (c :: p2) rest]

/-- C6: parsing iwconfig-style output. An output whose line carries a
quoted field `ESSID:"…"` yields exactly the text between the quotes (so
`ESSID:"MyNetwork"` yields `MyNetwork`, quotes stripped); an output whose
`ESSID` field is unquoted — such as `ESSID:off/any` — contains no double
quote at all and yields absent. -/
theorem spec_c6_iwconfig_parsing :
    (∀ (env : OSEnv) (s : String), '"' ∉ s.data → '\n' ∉ s.data →
       env.run ["iwconfig"] = .ok ("ESSID:\"" ++ s ++ "\"") →
       linuxIwconfig env = .ok (some s))
  ∧ (∀ (env : OSEnv) (out : String), env.run ["iwconfig"] = .ok out → '"' ∉ out.data →
       linuxIwconfig env = .ok none) := by
  constructor
  · intro env s hq hn hrun
    unfold linuxIwconfig
    rw [hrun]
    have hdata : ("ESSID:\"" ++ s ++ "\"").data = essidPat ++ (s.data ++ ['"']) := by
      rw [show ("ESSID:\"" ++ s ++ "\"").data = "ESSID:\"".data ++ s.data ++ "\"".data by
            simp [String.data_append],
          show ("ESSID:\"" : String).data = essidPat from rfl,
          show ("\"" : String).data = ['"'] from rfl, List.append_assoc]
    have hnl : '\n' ∉ essidPat ++ (s.data ++ ['"']) := by
      intro hm
      rcases List.mem_append.mp hm with h1 | h2
      · exact absurd h1 (by decide)
      · rcases List.mem_append.mp h2 with h3 | h4
        · exact hn h3
        · exact absurd h4 (by decide)
    have hcontains : containsSub "ESSID:".data (essidPat ++ (s.data ++ ['"'])) = true := by
      rw [show essidPat ++ (s.data ++ ['"']) =
            "ESSID:".data ++ ('"' :: (s.data ++ ['"'])) from rfl]
      exact containsSub_append_self _ _
    have hscan : essidScan (essidPat ++ (s.data ++ ['"'])) = some s.data :=
      essidScan_of_prefix (takeUntilQuote_append hq [])
    simp only [Except.map]
    rw [hdata, splitLines_no_newline hnl]
    simp [iwconfigFind, hcontains, hscan]
  · intro env out hrun hq
    unfold linuxIwconfig
    rw [hrun]
    have hfind : iwconfigFind (splitLines out.data) = none :=
      iwconfigFind_none fun l hl => splitLinesAux_no_mem out.data hq [] (by simp) l hl
    simp [Except.map, hfind]

/-- Witness for C6 at the spec's concrete examples. -/
theorem spec_c6_witness :
    linuxIwconfig (envIwconfig "ESSID:\"MyNetwork\"") = .ok (some "MyNetwork")
  ∧ linuxIwconfig (envIwconfig "wlan0     IEEE 802.11  ESSID:off/any  ") = .ok none :=
  ⟨spec_c6_iwconfig_parsing.1 (envIwconfig "ESSID:\"MyNetwork\"") "MyNetwork"
      (by decide) (by decide) rfl,
   spec_c6_iwconfig_parsing.2 (envIwconfig "wlan0     IEEE 802.11  ESSID:off/any  ")
      "wlan0     IEEE 802.11  ESSID:off/any  " rfl (by decide)⟩

theorem dictGet_eq_none {α : Type} {d : List (String × α)} {k : String}
    (h : k ∉ d.map Prod.fst) : dictGet d k = none := by
  unfold dictGet
  rw [List.find?_eq_none.mpr]
  · rfl
  · intro kv hkv hbeq
    exact h (List.mem_map.mpr ⟨kv, hkv, eq_of_beq hbeq⟩)

theorem dictGet_append_some {α : Type} {d1 d2 : List (String × α)} {k : String} {v : α}
    (h : dictGet d1 k = some v) : dictGet (d1 ++ d2) k = some v := by
  unfold dictGet at h ⊢
  rw [List.find?_append]
  cases hf : d1.find? (fun kv => kv.1 == k) with
  | none => rw [hf] at h; exact absurd h (by simp)
  | some kv => rw [hf] at h; simp [Option.or, h]

theorem dictGet_append_none {α : Type} {d1 d2 : List (String × α)} {k : String}
    (h : dictGet d1 k = none) : dictGet (d1 ++ d2) k = dictGet d2 k := by
  unfold dictGet at h ⊢
  rw [List.find?_append]
  cases hf : d1.find? (fun kv => kv.1 == k) with
  | none => simp [Option.or]
  | some kv => rw [hf] at h; exact absurd h (by simp)

theorem getNetworkProfile_auto (env : OSEnv) (top : List (String × String))
    (nets : List (String × Profile)) (ad : Bool) :
    getNetworkProfile env (some ⟨top, some nets⟩) none ad = autoResolve env top nets ad := rfl

theorem getNetworkProfile_legacy (env : OSEnv) (top : List (String × String))
    (nm : Option String) (ad : Bool) :
    getNetworkProfile env (some ⟨top, none⟩) nm ad = legacyResolve top := by
  cases nm with
  | none => rfl
  | some name => rfl

theorem legacyResolve_ok {top : List (String × String)} {wu un pw : String}
    (hw : dictGet top "wifi_url" = some wu) (hu : dictGet top "username" = some un)
    (hp : dictGet top "password" = some pw) :
    legacyResolve top = .ok ("legacy", legacyProfile top wu un pw) := by
  unfold legacyResolve
  rw [hw, hu, hp]

theorem autoResolve_of_match {env : OSEnv} {nets : List (String × Profile)}
    {s n : String} {p : Profile} (top : List (String × String))
    (hssid : getCurrentSsid env = .ok (some s)) (hs : s ≠ "")
    (hf : findBySsid nets s = some (n, p)) :
    autoResolve env top nets true = .ok (n, p) := by
  unfold autoResolve detectMatch
  rw [hssid]
  simp [hs, hf]

theorem autoResolve_fallback {env : OSEnv} {nets : List (String × Profile)}
    (top : List (String × String))
    (hnm : ∀ s, getCurrentSsid env = .ok (some s) → s ≠ "" → findBySsid nets s = none) :
    autoResolve env top nets true = defaultFallback top nets := by
  obtain ⟨o, ho⟩ := getCurrentSsid_ok env
  unfold autoResolve detectMatch
  rw [ho]
  cases o with
  | none => simp
  | some s =>
    by_cases hs : s = ""
    · subst hs; simp
    · simp [hs, hnm s ho hs]

/-- C1: on a multi-profile configuration, with no explicit name and
auto-detection on, resolution order is: a truthy detected SSID matching
some profile's `ssid` field picks the first such profile in iteration order
(whatever `default_network` says); otherwise a `default_network` naming an
existing key picks that profile; otherwise the first profile in iteration
order is picked. -/
theorem spec_c1_auto_resolution_order (env : OSEnv) (top : List (String × String))
    (nets : List (String × Profile)) :
    (∀ (s n : String) (p : Profile), getCurrentSsid env = .ok (some s) → s ≠ "" →
       findBySsid nets s = some (n, p) →
       getNetworkProfile env (some ⟨top, some nets⟩) none true = .ok (n, p))
  ∧ (∀ (_ : ∀ s, getCurrentSsid env = .ok (some s) → s ≠ "" → findBySsid nets s = none)
       (d : String) (p : Profile), dictGet top "default_network" = some d →
       dictGet nets d = some p →
       getNetworkProfile env (some ⟨top, some nets⟩) none true = .ok (d, p))
  ∧ (∀ (_ : ∀ s, getCurrentSsid env = .ok (some s) → s ≠ "" → findBySsid nets s = none)
       (_ : ∀ d, dictGet top "default_network" = some d → dictGet nets d = none)
       (k : String) (p : Profile) (rest : List (String × Profile)),
       nets = (k, p) :: rest →
       getNetworkProfile env (some ⟨top, some nets⟩) none true = .ok (k, p)) := by
  refine ⟨?_, ?_, ?_⟩
  · intro s n p h1 h2 h3
    rw [getNetworkProfile_auto]
    exact autoResolve_of_match top h1 h2 h3
  · intro hnm d p hd hp
    rw [getNetworkProfile_auto, autoResolve_fallback top hnm]
    simp [defaultFallback, hd, hp]
  · intro hnm hdef k p rest hne
    subst hne
    rw [getNetworkProfile_auto, autoResolve_fallback top hnm]
    cases hdn : dictGet top "default_network" with
    | none => simp [defaultFallback, hdn]
    | some d => simp [defaultFallback, hdn, hdef d hdn]

/-- Witness for C1 on the spec's example configuration: a matching detected
SSID overrides the default; an unmatched one falls back to the default; a
failing detector with no default falls back to the first profile. -/
theorem spec_c1_witness :
    getNetworkProfile (envIwgetid "Home-5G") (some ⟨[("default_network", "work")], some netsHW⟩)
      none true = .ok ("home", [("ssid", "Home-5G")])
  ∧ getNetworkProfile (envIwgetid "CafeWifi") (some ⟨[("default_network", "work")], some netsHW⟩)
      none true = .ok ("work", [("ssid", "CorpNet")])
  ∧ getNetworkProfile envNoTool (some ⟨[], some netsHW⟩)
      none true = .ok ("home", [("ssid", "Home-5G")]) := by
  refine ⟨?_, ?_, ?_⟩
  · exact (spec_c1_auto_resolution_order (envIwgetid "Home-5G") [("default_network", "work")]
      netsHW).1 "Home-5G" "home" [("ssid", "Home-5G")] rfl (by decide) rfl
  · refine (spec_c1_auto_resolution_order (envIwgetid "CafeWifi") [("default_network", "work")]
      netsHW).2.1 ?_ "work" [("ssid", "CorpNet")] rfl rfl
    intro s h hs
    have h2 : some "CafeWifi" = some s := Except.ok.inj (Eq.trans rfl.symm h)
    have h3 : "CafeWifi" = s := Option.some.inj h2
    subst h3
    rfl
  · refine (spec_c1_auto_resolution_order envNoTool [] netsHW).2.2 ?_ ?_ "home"
      [("ssid", "Home-5G")] [("work", [("ssid", "CorpNet")])] rfl
    · intro s h hs
      rw [show getCurrentSsid envNoTool = Except.ok none from rfl] at h
      exact Option.noConfusion (Except.ok.inj h)
    · intro d hd
      rw [show dictGet ([] : List (String × String)) "default_network" = none from rfl] at hd
      exact Option.noConfusion hd

/-- C2: on a legacy configuration (no `networks` mapping),
`get_network_profile` ignores the explicit name and the auto-detect flag:
with `wifi_url`, `username` and `password` all present it returns
`("legacy", profile)` built from the top-level fields (with `ssid` and
`product_type` defaulting via `legacyProfile`); with any of the three
missing it fails with a ConfigurationError; and adding the one missing
field makes it succeed with name `"legacy"`. -/
theorem spec_c2_legacy_resolution (env : OSEnv) (top : List (String × String))
    (nm : Option String) (ad : Bool) :
    (∀ wu un pw, dictGet top "wifi_url" = some wu → dictGet top "username" = some un →
       dictGet top "password" = some pw →
       getNetworkProfile env (some ⟨top, none⟩) nm ad =
         .ok ("legacy", legacyProfile top wu un pw))
  ∧ ((dictGet top "wifi_url" = none ∨ dictGet top "username" = none ∨
        dictGet top "password" = none) →
       ∃ e, getNetworkProfile env (some ⟨top, none⟩) nm ad = .error e ∧
         e.isConfigurationError = true)
  ∧ (∀ f v, f ∈ ["wifi_url", "username", "password"] → dictGet top f = none →
       (∀ g, g ∈ ["wifi_url", "username", "password"] → g ≠ f →
          ∃ w, dictGet top g = some w) →
       ∃ pr, getNetworkProfile env (some ⟨top ++ [(f, v)], none⟩) nm ad =
         .ok ("legacy", pr)) := by
  refine ⟨?_, ?_, ?_⟩
  · intro wu un pw hw hu hp
    rw [getNetworkProfile_legacy]
    exact legacyResolve_ok hw hu hp
  · intro h
    rw [getNetworkProfile_legacy]
    unfold legacyResolve
    cases hw : dictGet top "wifi_url" with
    | none => exact ⟨.keyError "wifi_url", rfl, rfl⟩
    | some wu =>
      cases hu : dictGet top "username" with
      | none => exact ⟨.keyError "username", rfl, rfl⟩
      | some un =>
        cases hpw : dictGet top "password" with
        | none => exact ⟨.keyError "password", rfl, rfl⟩
        | some pw =>
          rcases h with h | h | h
          · rw [h] at hw; exact Option.noConfusion hw
          · rw [h] at hu; exact Option.noConfusion hu
          · rw [h] at hpw; exact Option.noConfusion hpw
  · intro f v hf hnone hothers
    rw [getNetworkProfile_legacy]
    have hself : dictGet (top ++ [(f, v)]) f = some v := by
      rw [dictGet_append_none hnone]
      simp [dictGet]
    have hother : ∀ g, g ∈ ["wifi_url", "username", "password"] → g ≠ f →
        ∃ w, dictGet (top ++ [(f, v)]) g = some w := by
      intro g hg hgf
      obtain ⟨w, hw⟩ := hothers g hg hgf
      exact ⟨w, dictGet_append_some hw⟩
    simp only [List.mem_cons, List.mem_singleton, List.not_mem_nil, or_false] at hf
    rcases hf with rfl | rfl | rfl
    · obtain ⟨un, hun⟩ := hother "username" (by simp) (by decide)
      obtain ⟨pw, hpw⟩ := hother "password" (by simp) (by decide)
      exact ⟨_, legacyResolve_ok hself hun hpw⟩
    · obtain ⟨wu, hwu⟩ := hother "wifi_url" (by simp) (by decide)
      obtain ⟨pw, hpw⟩ := hother "password" (by simp) (by decide)
      exact ⟨_, legacyResolve_ok hwu hself hpw⟩
    · obtain ⟨wu, hwu⟩ := hother "wifi_url" (by simp) (by decide)
      obtain ⟨un, hun⟩ := hother "username" (by simp) (by decide)
      exact ⟨_, legacyResolve_ok hwu hun hself⟩

/-- Witness for C2: a complete legacy configuration resolves to `"legacy"`
whatever the arguments; one missing `wifi_url` fails with a
ConfigurationError; adding `wifi_url` makes it succeed. -/
theorem spec_c2_witness :
    getNetworkProfile envNoTool (some ⟨topLegacy, none⟩) (some "x") false =
      .ok ("legacy", [("ssid", "Unknown"), ("wifi_url", "http://portal/login"),
        ("username", "alice"), ("password", "pw"), ("product_type", "0"),
        ("description", "Legacy configuration")])
  ∧ (∃ e, getNetworkProfile envNoTool
        (some ⟨[("username", "alice"), ("password", "pw")], none⟩) none true = .error e ∧
          e.isConfigurationError = true)
  ∧ (∃ pr, getNetworkProfile envNoTool
        (some ⟨[("username", "alice"), ("password", "pw")] ++ [("wifi_url", "u")], none⟩)
        none true = .ok ("legacy", pr)) := by
  refine ⟨?_, ?_, ?_⟩
  · exact (spec_c2_legacy_resolution envNoTool topLegacy (some "x") false).1
      "http://portal/login" "alice" "pw" rfl rfl rfl
  · exact (spec_c2_legacy_resolution envNoTool
      [("username", "alice"), ("password", "pw")] none true).2.1 (Or.inl rfl)
  · refine (spec_c2_legacy_resolution envNoTool
      [("username", "alice"), ("password", "pw")] none true).2.2 "wifi_url" "u"
      (by simp) rfl ?_
    intro g hg hgf
    simp only [List.mem_cons, List.mem_singleton, List.not_mem_nil, or_false] at hg
    rcases hg with rfl | rfl | rfl
    · exact absurd rfl hgf
    · exact ⟨"alice", rfl⟩
    · exact ⟨"pw", rfl⟩

/-- C3: on a multi-profile configuration, a non-empty explicit name that is
a key of the mapping resolves to exactly that entry, whatever the platform,
tools and detected SSID; a non-empty explicit name that is not a key always
fails with a ConfigurationError (the `ValueError` carrying the name). -/
theorem spec_c3_explicit_name (env : OSEnv) (top : List (String × String))
    (nets : List (String × Profile)) (ad : Bool) :
    (∀ (X : String) (p : Profile), X ≠ "" → dictGet nets X = some p →
       getNetworkProfile env (some ⟨top, some nets⟩) (some X) ad = .ok (X, p))
  ∧ (∀ X : String, X ≠ "" → X ∉ nets.map Prod.fst →
       getNetworkProfile env (some ⟨top, some nets⟩) (some X) ad =
         .error (.valueError X) ∧
       (ResolveError.valueError X).isConfigurationError = true) := by
  have hunfold : ∀ X : String, getNetworkProfile env (some ⟨top, some nets⟩) (some X) ad =
      (if X ≠ "" then
         match dictGet nets X with
         | some p => .ok (X, p)
         | none => .error (.valueError X)
       else autoResolve env top nets ad) := fun X => rfl
  constructor
  · intro X p hX hp
    rw [hunfold, if_pos hX, hp]
  · intro X hX hmem
    rw [hunfold, if_pos hX, dictGet_eq_none hmem]
    exact ⟨rfl, rfl⟩

/-- Witness for C3 on the spec's example configuration. -/
theorem spec_c3_witness :
    getNetworkProfile (envIwgetid "Home-5G") (some ⟨[], some netsHW⟩) (some "work") true =
      .ok ("work", [("ssid", "CorpNet")])
  ∧ getNetworkProfile envNoTool (some ⟨[], some netsHW⟩) (some "nonexistent") true =
      .error (.valueError "nonexistent") := by
  constructor
  · exact (spec_c3_explicit_name (envIwgetid "Home-5G") [] netsHW true).1 "work"
      [("ssid", "CorpNet")] (by decide) rfl
  · exact ((spec_c3_explicit_name envNoTool [] netsHW true).2 "nonexistent"
      (by decide) (by decide)).1

theorem listNetworks_legacy (top : List (String × String)) :
    listNetworks (some ⟨top, none⟩) =
      match dictGet top "wifi_url" with
      | none => []
      | some wu => [("legacy", legacyListEntry top wu)] := by
  have h1 : listNetworks (some ⟨top, none⟩) =
      match (match dictGet top "wifi_url" with
             | none => Except.error (ResolveError.keyError "wifi_url")
             | some wu => Except.ok [("legacy", legacyListEntry top wu)]) with
      | .ok r => r
      | .error _ => [] := rfl
  rw [h1]
  cases h : dictGet top "wifi_url" with
  | none => rfl
  | some wu => rfl

/-- C7: `list_networks` never raises: a legacy configuration (whose
`wifi_url` is present) yields exactly the one-entry mapping keyed
`"legacy"`; a multi-profile configuration yields the `networks` mapping
verbatim; a missing configuration file, or a legacy configuration missing
`wifi_url`, yields the empty mapping instead of an error. -/
theorem spec_c7_list_networks (top : List (String × String))
    (nets : List (String × Profile)) :
    (∀ wu, dictGet top "wifi_url" = some wu →
       listNetworks (some ⟨top, none⟩) = [("legacy", legacyListEntry top wu)])
  ∧ listNetworks (some ⟨top, some nets⟩) = nets
  ∧ listNetworks none = []
  ∧ (dictGet top "wifi_url" = none → listNetworks (some ⟨top, none⟩) = []) := by
  refine ⟨?_, rfl, rfl, ?_⟩
  · intro wu hw
    rw [listNetworks_legacy, hw]
  · intro hw
    rw [listNetworks_legacy, hw]

/-- Witness for C7. -/
theorem spec_c7_witness :
    listNetworks (some ⟨topLegacy, none⟩) =
      [("legacy", [("ssid", "Unknown"), ("wifi_url", "http://portal/login"),
        ("description", "Legacy configuration")])]
  ∧ listNetworks (some ⟨[], some netsHW⟩) = netsHW
  ∧ listNetworks (some ⟨[("username", "alice")], none⟩) = [] := by
  refine ⟨?_, ?_, ?_⟩
  · exact (spec_c7_list_networks topLegacy netsHW).1 "http://portal/login" rfl
  · exact (spec_c7_list_networks [] netsHW).2.1
  · exact (spec_c7_list_networks [("username", "alice")] netsHW).2.2.2 rfl

/-- C8: `get_available_networks` returns the keys of the `networks`
mapping on a multi-profile configuration and the synthetic singleton
`["default"]` on a legacy one — a placeholder distinct from the `"legacy"`
name `get_network_profile` and `list_networks` use for the same
configuration — and returns the empty sequence on internal failure. -/
theorem spec_c8_available_networks (top : List (String × String))
    (nets : List (String × Profile)) :
    getAvailableNetworks (some ⟨top, some nets⟩) = nets.map Prod.fst
  ∧ getAvailableNetworks (some ⟨top, none⟩) = ["default"]
  ∧ getAvailableNetworks none = []
  ∧ ("default" : String) ≠ "legacy"
  ∧ (∀ (env : OSEnv) (nm : Option String) (ad : Bool) (wu un pw : String),
       dictGet top "wifi_url" = some wu → dictGet top "username" = some un →
       dictGet top "password" = some pw →
       getNetworkProfile env (some ⟨top, none⟩) nm ad =
         .ok ("legacy", legacyProfile top wu un pw)
       ∧ listNetworks (some ⟨top, none⟩) = [("legacy", legacyListEntry top wu)]) := by
  refine ⟨rfl, rfl, rfl, by decide, ?_⟩
  intro env nm ad wu un pw hw hu hp
  constructor
  · rw [getNetworkProfile_legacy]
    exact legacyResolve_ok hw hu hp
  · rw [listNetworks_legacy, hw]

/-- Witness for C8. -/
theorem spec_c8_witness :
    getAvailableNetworks (some ⟨[], some netsHW⟩) = ["home", "work"]
  ∧ getAvailableNetworks (some ⟨topLegacy, none⟩) = ["default"]
  ∧ (getNetworkProfile envNoTool (some ⟨topLegacy, none⟩) none true =
       .ok ("legacy", legacyProfile topLegacy "http://portal/login" "alice" "pw")
     ∧ listNetworks (some ⟨topLegacy, none⟩) =
       [("legacy", legacyListEntry topLegacy "http://portal/login")]) := by
  refine ⟨?_, ?_, ?_⟩
  · exact (spec_c8_available_networks [] netsHW).1
  · exact (spec_c8_available_networks topLegacy netsHW).2.1
  · exact (spec_c8_available_networks topLegacy netsHW).2.2.2.2 envNoTool none true
      "http://portal/login" "alice" "pw" rfl rfl rfl

/-- C9: the non-empty-mapping invariant is a genuine precondition: with a
present but empty `networks` mapping and no explicit name, resolution
reaches the unguarded `list(networks.keys())[0]` and fails with an
`IndexError`, which is not a ConfigurationError; with a non-empty mapping
the final fallback always succeeds. -/
theorem spec_c9_empty_networks_index_error (env : OSEnv) (top : List (String × String))
    (ad : Bool) :
    getNetworkProfile env (some ⟨top, some []⟩) none ad = .error .indexError
  ∧ ResolveError.indexError.isConfigurationError = false
  ∧ (∀ nets : List (String × Profile), nets ≠ [] →
       ∃ n p, getNetworkProfile env (some ⟨top, some nets⟩) none ad = .ok (n, p)) := by
  have hfb : defaultFallback top [] = .error .indexError := by
    unfold defaultFallback
    cases h : dictGet top "default_network" with
    | none => rfl
    | some d => rfl
  refine ⟨?_, rfl, ?_⟩
  · rw [getNetworkProfile_auto]
    cases ad with
    | false =>
      unfold autoResolve
      exact hfb
    | true =>
      have hnm : ∀ s, getCurrentSsid env = .ok (some s) → s ≠ "" →
          findBySsid ([] : List (String × Profile)) s = none := fun s _ _ => rfl
      rw [autoResolve_fallback top hnm]
      exact hfb
  · intro nets hne
    cases nets with
    | nil => exact absurd rfl hne
    | cons kp rest =>
      obtain ⟨k, p⟩ := kp
      rw [getNetworkProfile_auto]
      unfold autoResolve
      have hex : ∃ o, (if ad = true then detectMatch env ((k, p) :: rest)
          else Except.ok none) = .ok o := by
        cases ad with
        | false => exact ⟨none, rfl⟩
        | true =>
          have hred : (if true = true then detectMatch env ((k, p) :: rest)
              else Except.ok none) = detectMatch env ((k, p) :: rest) := rfl
          rw [hred]
          unfold detectMatch
          obtain ⟨o, ho⟩ := getCurrentSsid_ok env
          rw [ho]
          cases o with
          | some s => exact ⟨_, rfl⟩
          | none => exact ⟨none, rfl⟩
      obtain ⟨o, ho⟩ := hex
      rw [ho]
      cases o with
      | some np =>
        obtain ⟨n, q⟩ := np
        exact ⟨n, q, rfl⟩
      | none =>
        show ∃ n q, defaultFallback top ((k, p) :: rest) = Except.ok (n, q)
        unfold defaultFallback
        cases hd : dictGet top "default_network" with
        | none => exact ⟨k, p, rfl⟩
        | some d =>
          show ∃ n q, (match dictGet ((k, p) :: rest) d with
              | some q2 => (Except.ok (d, q2) : Except ResolveError (String × Profile))
              | none => Except.ok (k, p)) = Except.ok (n, q)
          cases hq : dictGet ((k, p) :: rest) d with
          | some q2 => exact ⟨d, q2, rfl⟩
          | none => exact ⟨k, p, rfl⟩

/-- Witness for C9. -/
theorem spec_c9_witness :
    getNetworkProfile envNoTool (some ⟨[], some []⟩) none true = .error .indexError
  ∧ (∃ n p, getNetworkProfile envNoTool (some ⟨[], some netsHW⟩) none true = .ok (n, p)) :=
  ⟨(spec_c9_empty_networks_index_error envNoTool [] true).1,
   (spec_c9_empty_networks_index_error envNoTool [] true).2.2 netsHW (by decide)⟩

/-- C10: for a complete legacy configuration, the `"legacy"` summary of
`list_networks` carries only `ssid`, `wifi_url` and `description`, whereas
the profile resolved by `get_network_profile` carries those plus
`username`, `password` and `product_type`: the summary is a strict
projection of the resolved profile. -/
theorem spec_c10_legacy_projection (env : OSEnv) (top : List (String × String))
    (nm : Option String) (ad : Bool) (wu un pw : String)
    (hw : dictGet top "wifi_url" = some wu) (hu : dictGet top "username" = some un)
    (hp : dictGet top "password" = some pw) :
    listNetworks (some ⟨top, none⟩) = [("legacy", legacyListEntry top wu)]
  ∧ getNetworkProfile env (some ⟨top, none⟩) nm ad =
      .ok ("legacy", legacyProfile top wu un pw)
  ∧ (legacyListEntry top wu).map Prod.fst = ["ssid", "wifi_url", "description"]
  ∧ (legacyProfile top wu un pw).map Prod.fst =
      ["ssid", "wifi_url", "username", "password", "product_type", "description"]
  ∧ (∀ kv ∈ legacyListEntry top wu, kv ∈ legacyProfile top wu un pw)
  ∧ "username" ∉ (legacyListEntry top wu).map Prod.fst := by
  refine ⟨by rw [listNetworks_legacy, hw],
          by rw [getNetworkProfile_legacy]; exact legacyResolve_ok hw hu hp,
          rfl, rfl, ?_, ?_⟩
  · intro kv hkv
    simp only [legacyListEntry, List.mem_cons, List.not_mem_nil, or_false] at hkv
    rcases hkv with rfl | rfl | rfl <;> simp [legacyProfile]
  · rw [show (legacyListEntry top wu).map Prod.fst =
        ["ssid", "wifi_url", "description"] from rfl]
    decide

/-- Witness for C10. -/
theorem spec_c10_witness :
    listNetworks (some ⟨topLegacy, none⟩) =
      [("legacy", legacyListEntry topLegacy "http://portal/login")]
  ∧ getNetworkProfile envNoTool (some ⟨topLegacy, none⟩) none true =
      .ok ("legacy", legacyProfile topLegacy "http://portal/login" "alice" "pw") := by
  have h := spec_c10_legacy_projection envNoTool topLegacy none true
    "http://portal/login" "alice" "pw" rfl rfl rfl
  exact ⟨h.1, h.2.1⟩
